import Mathlib

/-!
Verification model of `src/todojo.py`, a single-file task tracker backed by a
SQLite table `tasks`. Pure fragments of the program (the SQL CRUD helpers, the
pandas filter block, the status-checkbox mapping, the CSV export and the
upcoming-deadlines report) are embedded as executable Lean definitions;
calendar dates are modelled as integer day numbers, timestamps as opaque
strings.
-/

namespace Todojo

/-- A row of the `tasks` table (`CREATE TABLE tasks`, lines 17-28 of
`todojo.py`): `id` is the AUTOINCREMENT primary key, `due_date` is a calendar
date (modelled as a day number), `tags` is nullable (pandas reads NULL as NaN,
which the tag filter treats via `na=False`), and the remaining text columns
are always written by the app as strings. -/
structure Task where
  id : Nat
  title : String
  description : String
  priority : String
  due_date : Int
  tags : Option String
  status : String
  created_at : String
deriving DecidableEq, Repr

/-- The persistent state: the rows of the `tasks` table in insertion order,
plus the SQLite AUTOINCREMENT sequence value `seq` (the largest id ever
assigned; a fresh insert receives `seq + 1`). -/
structure Store where
  rows : List Task
  seq : Nat
deriving DecidableEq, Repr

/-- Errors surfaced by the embedded operations: `validationError` models the
inline `st.error` message shown by the add form, `operationalError` models a
`sqlite3.OperationalError` raised while executing a statement. -/
inductive AppError where
  | validationError : String → AppError
  | operationalError : String → AppError
deriving DecidableEq, Repr

/-- `SELECT * FROM tasks` (the `fetch_tasks` helper): every row, in rowid
(insertion) order. -/
def list_all (s : Store) : List Task :=
  s.rows

/-- `add_task(title, desc, prio, due, tags)` (lines 37-45): INSERTs one row
with `status="Pending"` and `created_at=datetime.now().isoformat()` (the
clock reading is the `now` parameter). The Python function body has no
`return` statement, so its value is `None`; the second component records that
returned value. -/
def add_task (now : String) (s : Store) (title desc pr : String) (due : Int)
    (tags : String) : Store × Option Nat :=
  (⟨s.rows ++ [⟨s.seq + 1, title, desc, pr, due, some tags, "Pending", now⟩],
    s.seq + 1⟩, none)

/-- Python `str.strip()`: remove leading and trailing whitespace. -/
def pyStrip (s : String) : String :=
  ⟨List.reverse (List.dropWhile Char.isWhitespace
    (List.reverse (List.dropWhile Char.isWhitespace s.data)))⟩

/-- The add-form submit handler (lines 90-95): `if not title.strip():` show
the error `"Title is required"` and write nothing, else call `add_task` on the
stripped inputs. The result pairs the store after the action with the outcome
shown to the user. -/
def add_form_submit (now : String) (s : Store) (title desc pr : String)
    (due : Int) (tags : String) : Store × Except AppError Unit :=
  if pyStrip title = "" then
    (s, Except.error (AppError.validationError "Title is required"))
  else
    ((add_task now s (pyStrip title) (pyStrip desc) pr due (pyStrip tags)).fst,
      Except.ok ())

/-- The keyword arguments accepted by `update_task(id, **kwargs)`: each field
of the row may or may not be supplied. -/
structure UpdateFields where
  title : Option String
  description : Option String
  priority : Option String
  due_date : Option Int
  tags : Option String
  status : Option String
deriving DecidableEq, Repr

/-- An empty kwargs dict. -/
def emptyUpdate : UpdateFields :=
  ⟨none, none, none, none, none, none⟩

/-- `update_task(id, status="Completed")`, the call made by the status
checkbox handler (line 123). -/
def updCompleted : UpdateFields :=
  ⟨none, none, none, none, none, some "Completed"⟩

/-- The column names present in the kwargs, in the column order used by the
edit-form call site (line 162-170). -/
def fieldNames (u : UpdateFields) : List String :=
  (match u.title with | none => [] | some _ => ["title"]) ++
  (match u.description with | none => [] | some _ => ["description"]) ++
  (match u.priority with | none => [] | some _ => ["priority"]) ++
  (match u.due_date with | none => [] | some _ => ["due_date"]) ++
  (match u.tags with | none => [] | some _ => ["tags"]) ++
  (match u.status with | none => [] | some _ => ["status"])

/-- Join a list of strings with `","` between consecutive elements (the
behaviour of `",".join` and of the CSV delimiter). -/
def joinComma : List String → String
  | [] => ""
  | [x] => x
  | x :: xs => x ++ "," ++ joinComma xs

/-- Join with `", "`, as in `cols = ", ".join(f"{k}=?" for k in kwargs)`. -/
def joinCommaSpace : List String → String
  | [] => ""
  | [x] => x
  | x :: xs => x ++ ", " ++ joinCommaSpace xs

/-- The SQL text built by `update_task` (line 50):
`f"UPDATE tasks SET {cols} WHERE id=?"`. -/
def update_sql (u : UpdateFields) : String :=
  "UPDATE tasks SET " ++ joinCommaSpace ((fieldNames u).map (fun k => k ++ "=?"))
    ++ " WHERE id=?"

/-- Apply the supplied kwargs to one row: each supplied column is overwritten,
every other column keeps its value. `id` and any column not named in the
kwargs (in particular `created_at`) are untouched. -/
def applyFields (u : UpdateFields) (t : Task) : Task :=
  ⟨t.id,
   (match u.title with | none => t.title | some v => v),
   (match u.description with | none => t.description | some v => v),
   (match u.priority with | none => t.priority | some v => v),
   (match u.due_date with | none => t.due_date | some v => v),
   (match u.tags with | none => t.tags | some v => some v),
   (match u.status with | none => t.status | some v => v),
   t.created_at⟩

/-- `update_task(id, **kwargs)` (lines 47-51): executes
`UPDATE tasks SET {cols} WHERE id=?`. With an empty kwargs dict the statement
text is `UPDATE tasks SET  WHERE id=?`, which SQLite rejects with
`OperationalError` (syntax error near `WHERE`), leaving the table unchanged.
Otherwise every row whose id matches is overwritten on the supplied columns;
a statement matching no row succeeds silently (SQLite `UPDATE` raises no
error when zero rows match). -/
def update_task (s : Store) (id : Nat) (u : UpdateFields) :
    Store × Except AppError Unit :=
  if fieldNames u = [] then
    (s, Except.error (AppError.operationalError "near \x22WHERE\x22: syntax error"))
  else
    (⟨s.rows.map (fun t => if t.id = id then applyFields u t else t), s.seq⟩,
      Except.ok ())

/-- `delete_task(id)` (lines 53-55): `DELETE FROM tasks WHERE id=?`. SQLite
DELETE raises no error when no row matches. -/
def delete_task (s : Store) (id : Nat) : Store :=
  ⟨s.rows.filter (fun t => !(t.id = id)), s.seq⟩

/-- The status checkbox mapping (lines 118-121):
`"Completed" if checked else ("In Progress" if row.status=="In Progress" else
"Pending")`. -/
def new_status (checked : Bool) (status : String) : String :=
  if checked then "Completed"
  else if status = "In Progress" then "In Progress"
  else "Pending"

/-- ASCII case folding, `Char.toLower` applied characterwise (the effect of
`case=False` / `re.IGNORECASE` on the alphabets appearing here). -/
def lowerData (l : List Char) : List Char :=
  l.map Char.toLower

/-- The characters that are metacharacters of a Python regular expression
(outside character classes): `. ^ $ * + ? { } [ ] \ | ( )`. -/
def isMeta (ch : Char) : Bool :=
  ch = '.' || ch = '^' || ch = '$' || ch = '*' || ch = '+' || ch = '?' ||
  ch = '\x7b' || ch = '\x7d' || ch = '[' || ch = ']' || ch = '\\' ||
  ch = '|' || ch = '(' || ch = ')'

/-- One atom of the modelled regex fragment: `.` (any character except a
newline) or a literal character. -/
inductive RAtom where
  | dot : RAtom
  | lit : Char → RAtom
deriving DecidableEq, Repr

/-- Parse a pattern string into atoms. The model covers the fragment in which
every character is either `.` or a non-metacharacter literal; a pattern using
any other regex feature is outside the model and parses to `none`. -/
def parseAtoms : List Char → Option (List RAtom)
  | [] => some []
  | ch :: rest =>
    if ch = '.' then (parseAtoms rest).map (fun as => RAtom.dot :: as)
    else if isMeta ch then none
    else (parseAtoms rest).map (fun as => RAtom.lit ch :: as)

/-- Whether one atom matches one character, under `re.IGNORECASE` (the
`case=False` of `str.contains`); `.` matches everything but `"\n"`. -/
def atomMatch : RAtom → Char → Bool
  | RAtom.dot, ch => !(ch = '\n')
  | RAtom.lit a, ch => Char.toLower a = Char.toLower ch

/-- Whether the atom list matches a prefix of the character list. -/
def matchHere : List RAtom → List Char → Bool
  | [], _ => true
  | _ :: _, [] => false
  | a :: as, ch :: rest => atomMatch a ch && matchHere as rest

/-- `re.search`: the atom list matches starting at some position of the
string. This is the matching performed by
`Series.str.contains(pat, case=False)` on each element. -/
def reSearch (pat : List RAtom) : List Char → Bool
  | [] => matchHere pat []
  | ch :: rest => matchHere pat (ch :: rest) || reSearch pat rest

/-- The task-list filter block (lines 100-105): successive pandas boolean
filters for status membership, priority membership, an optional due-date
upper bound (`if due_f:`) and an optional tag pattern (`if tag_f:`, with
`df["tags"].str.contains(tag_f, case=False, na=False)`: NULL tags never
match, and the pattern is a regular expression since `regex=True` is the
pandas default). The result is `none` when the pattern falls outside the
modelled regex fragment. -/
def task_list_filter (status_f prio_f : List String) (due_f : Option Int)
    (tag_f : String) (rows : List Task) : Option (List Task) :=
  let df1 := rows.filter (fun t => status_f.contains t.status)
  let df2 := df1.filter (fun t => prio_f.contains t.priority)
  let df3 := match due_f with
    | none => df2
    | some d => df2.filter (fun t => t.due_date ≤ d)
  if tag_f = "" then some df3
  else
    match parseAtoms tag_f.data with
    | none => none
    | some pat =>
        some (df3.filter (fun t =>
          match t.tags with
          | none => false
          | some s => reSearch pat s.data))

/-- Boolean test that `needle` is a prefix of `hay` (literal characterwise
equality). -/
def isPre : List Char → List Char → Bool
  | [], _ => true
  | _ :: _, [] => false
  | a :: as, b :: bs => a = b && isPre as bs

/-- Literal substring containment: `needle` occurs contiguously in `hay`. -/
def containsSub (needle : List Char) : List Char → Bool
  | [] => needle.isEmpty
  | ch :: rest => isPre needle (ch :: rest) || containsSub needle rest

/-- Formalisation of the spec's filter contract, written from its words: keep
exactly the tasks with status in `statuses` (an empty set matches none),
priority in `priorities`, `due_before` absent or `due_date ≤ due_before`, and
`tag_substring` absent/empty or the tags containing it case-insensitively as
a literal substring, a task with no tags never matching a non-empty
substring filter. -/
def filter_spec_pred (status_f prio_f : List String) (due_f : Option Int)
    (tag_f : String) (t : Task) : Bool :=
  status_f.contains t.status &&
  prio_f.contains t.priority &&
  (match due_f with
   | none => true
   | some d => t.due_date ≤ d) &&
  (if tag_f = "" then true
   else match t.tags with
     | none => false
     | some s => containsSub (lowerData tag_f.data) (lowerData s.data))

/-- Ordering of tasks by due date, the sort key of
`upcoming.sort_values("due_date")`. -/
def dueLe (a b : Task) : Prop :=
  a.due_date ≤ b.due_date

instance : DecidableRel dueLe :=
  fun a b => Int.decLe a.due_date b.due_date

instance : IsTotal Task dueLe :=
  ⟨fun a b => Int.le_total a.due_date b.due_date⟩

instance : IsTrans Task dueLe :=
  ⟨fun _ _ _ h1 h2 => Int.le_trans h1 h2⟩

/-- The Upcoming Deadlines block (lines 194-203): select the rows with
`due_date <= today + 7` (`date.today() + pd.Timedelta(days=7)`), then sort
ascending by `due_date`. The sort is modelled by insertion sort; the claims
about the block concern only which rows appear and that the output is
ordered by due date. -/
def upcoming_block (today : Int) (rows : List Task) : List Task :=
  List.insertionSort dueLe (rows.filter (fun t => t.due_date ≤ today + 7))

/-- Decimal digit characters. -/
def digitChar (n : Nat) : Char :=
  if n = 0 then '0' else if n = 1 then '1' else if n = 2 then '2'
  else if n = 3 then '3' else if n = 4 then '4' else if n = 5 then '5'
  else if n = 6 then '6' else if n = 7 then '7' else if n = 8 then '8'
  else '9'

/-- Decimal rendering of a natural number, with explicit fuel so that it is
structurally recursive. -/
def natDigitsAux : Nat → Nat → List Char → List Char
  | 0, _, acc => acc
  | fuel + 1, n, acc =>
    if n < 10 then digitChar n :: acc
    else natDigitsAux fuel (n / 10) (digitChar (n % 10) :: acc)

/-- Decimal rendering of a natural number. -/
def natToStr (n : Nat) : String :=
  ⟨natDigitsAux (n + 1) n []⟩

/-- Decimal rendering of an integer (the textual form of `id` and of the day
number standing in for `due_date` in the CSV dump). -/
def intToStr : Int → String
  | Int.ofNat n => natToStr n
  | Int.negSucc n => "-" ++ natToStr (n + 1)

/-- Whether pandas `to_csv` must quote a field: it contains the delimiter, the
quote character, or a line break. -/
def needsQuote (s : String) : Bool :=
  s.data.any (fun ch => ch = ',' || ch = '"' || ch = '\n' || ch = '\r')

/-- CSV quote escaping: each `"` becomes `""`. -/
def escapeQuotes (s : String) : String :=
  ⟨s.data.flatMap (fun ch => if ch = '"' then ['"', '"'] else [ch])⟩

/-- One CSV field under the default QUOTE_MINIMAL rule of `to_csv`. -/
def csvField (s : String) : String :=
  if needsQuote s then "\"" ++ escapeQuotes s ++ "\"" else s

/-- The columns of the `tasks` table, in schema order. -/
def tasks_columns : List String :=
  ["id", "title", "description", "priority", "due_date", "tags", "status",
   "created_at"]

/-- The CSV header line. -/
def csv_header : String :=
  joinComma tasks_columns

/-- One CSV data line: the row's column values in schema order (a NULL `tags`
prints as an empty field, as pandas prints NaN). -/
def csvRow (t : Task) : String :=
  joinComma [natToStr t.id, csvField t.title, csvField t.description,
    csvField t.priority, intToStr t.due_date,
    csvField (match t.tags with | none => "" | some v => v),
    csvField t.status, csvField t.created_at]

/-- Concatenation of a list of strings. -/
def concatAll : List String → String
  | [] => ""
  | x :: xs => x ++ concatAll xs

/-- `df_all.to_csv(index=False)` (line 72): the header line then one record
per row, each terminated by `"\n"`. -/
def to_csv (rows : List Task) : String :=
  csv_header ++ "\n" ++ concatAll (rows.map (fun t => csvRow t ++ "\n"))

/-- The number of `"\n"`-terminated lines of a string (every line of a
`to_csv` dump is newline-terminated, the last included). -/
def newlineCount (s : String) : Nat :=
  s.data.count '\n'

/-- A string free of line breaks. -/
def noNL (s : String) : Bool :=
  '\n' ∉ s.data

/-- All text fields of a row are free of line breaks. -/
def taskNoNL (t : Task) : Bool :=
  noNL t.title && noNL t.description && noNL t.priority &&
  noNL (match t.tags with | none => "" | some v => v) &&
  noNL t.status && noNL t.created_at

/-- The default status filter supplied by the sidebar multiselect. -/
def allStatuses : List String :=
  ["Pending", "In Progress", "Completed"]

/-- The default priority filter supplied by the sidebar multiselect. -/
def allPriorities : List String :=
  ["Low", "Medium", "High"]

/-- A concrete sample row, used to instantiate the theorems below. -/
def exTask : Task :=
  ⟨1, "Buy milk", "two litres", "High", 3, some "Errands,Home", "Pending", "t1"⟩

/-- A concrete one-row store whose AUTOINCREMENT sequence is at 1. -/
def exStore : Store :=
  ⟨[exTask], 1⟩

/-- A row whose description contains an embedded line break (reachable
through the description `st.text_area`). -/
def nlTask : Task :=
  ⟨1, "Report", "first line\nsecond line", "Low", 5, some "work", "Pending", "t2"⟩

/-- A row due today (day 0), for the upcoming-deadlines scenario. -/
def taskA : Task :=
  ⟨1, "A", "", "High", 0, some "", "Pending", "t3"⟩

/-- A row due in 10 days, for the upcoming-deadlines scenario. -/
def taskB : Task :=
  ⟨2, "B", "", "Low", 10, some "", "Pending", "t4"⟩

/-- C5: the boolean done toggle maps onto the three-state status as the
checkbox handler's conditional does: toggling on yields Completed; toggling
off keeps In Progress exactly when the current status is In Progress and
yields Pending for every other current status — in particular toggling off a
Completed task yields Pending, never In Progress. -/
theorem C5_toggle_mapping (status : String) :
    new_status true status = "Completed" ∧
    new_status false "In Progress" = "In Progress" ∧
    (status ≠ "In Progress" → new_status false status = "Pending") ∧
    new_status false "Completed" = "Pending" := by
  refine ⟨rfl, rfl, ?_, rfl⟩
  intro h
  simp [new_status, h]

theorem C5_toggle_mapping_witness :
    new_status true "Pending" = "Completed" ∧
    new_status false "Pending" = "Pending" :=
  ⟨(C5_toggle_mapping "Pending").1,
   (C5_toggle_mapping "Pending").2.2.1 (by decide)⟩

/-- C6: deleting an id that matches no row raises nothing (the operation is a
total function) and leaves the store unchanged, and delete is idempotent: a
second delete of the same id changes nothing. -/
theorem C6_delete_idempotent (s : Store) (id : Nat)
    (h : ∀ t ∈ s.rows, t.id ≠ id) :
    delete_task s id = s ∧
    delete_task (delete_task s id) id = delete_task s id := by
  constructor
  · unfold delete_task
    have hf : s.rows.filter (fun t => !(t.id = id)) = s.rows := by
      apply List.filter_eq_self.mpr
      intro t ht
      simpa using h t ht
    rw [hf]
  · unfold delete_task
    simp [List.filter_filter]

theorem C6_delete_idempotent_witness :
    delete_task exStore 999 = exStore ∧
    delete_task (delete_task exStore 999) 999 = delete_task exStore 999 :=
  C6_delete_idempotent exStore 999 (by decide)

/-- C2 fails on the code: `update_task` with a nonexistent id raises no
error at all. At the concrete one-row store, updating id 999 returns plain
success (SQLite `UPDATE` matching zero rows is a silent no-op, and the Python
wrapper never inspects the row count), and the store is unchanged — no
`NotFoundError` is surfaced. -/
theorem C2_counterexample :
    (update_task exStore 999 updCompleted).snd = Except.ok () ∧
    (update_task exStore 999 updCompleted).fst = exStore :=
  ⟨rfl, rfl⟩

/-- C2 amended: for every id matching no row, `update_task` with at least one
field completes without error (no `NotFoundError` is raised) and the store
state is unchanged. -/
theorem C2_update_missing_id_noop (s : Store) (id : Nat) (u : UpdateFields)
    (hu : fieldNames u ≠ []) (h : ∀ t ∈ s.rows, t.id ≠ id) :
    update_task s id u = (s, Except.ok ()) := by
  unfold update_task
  rw [if_neg hu]
  have h2 : s.rows.map (fun t => if t.id = id then applyFields u t else t) =
      s.rows.map (fun t => t) :=
    List.map_congr_left (fun t ht => by rw [if_neg (h t ht)])
  rw [h2, List.map_id']

theorem C2_update_missing_id_noop_witness :
    update_task exStore 999 updCompleted = (exStore, Except.ok ()) :=
  C2_update_missing_id_noop exStore 999 updCompleted (by decide) (by decide)

/-- C8: updating an existing row's status to Completed succeeds, and the
resulting table is the old table with exactly the rows of that id overwritten
by `applyFields updCompleted`, which sets status to Completed and preserves
id, title, description, priority, due_date, tags and created_at. -/
theorem C8_update_status_frame (s : Store) (tk : Task) (_hmem : tk ∈ s.rows) :
    (update_task s tk.id updCompleted).snd = Except.ok () ∧
    list_all (update_task s tk.id updCompleted).fst =
      (list_all s).map
        (fun t => if t.id = tk.id then applyFields updCompleted t else t) ∧
    (applyFields updCompleted tk).status = "Completed" ∧
    (applyFields updCompleted tk).id = tk.id ∧
    (applyFields updCompleted tk).title = tk.title ∧
    (applyFields updCompleted tk).description = tk.description ∧
    (applyFields updCompleted tk).priority = tk.priority ∧
    (applyFields updCompleted tk).due_date = tk.due_date ∧
    (applyFields updCompleted tk).tags = tk.tags ∧
    (applyFields updCompleted tk).created_at = tk.created_at :=
  ⟨rfl, rfl, rfl, rfl, rfl, rfl, rfl, rfl, rfl, rfl⟩

theorem C8_update_status_frame_witness :
    (update_task exStore exTask.id updCompleted).snd = Except.ok () ∧
    (applyFields updCompleted exTask).status = "Completed" :=
  ⟨(C8_update_status_frame exStore exTask (by decide)).1,
   (C8_update_status_frame exStore exTask (by decide)).2.2.1⟩

/-- C10: calling `update_task` with an empty kwargs dict builds the malformed
statement `UPDATE tasks SET  WHERE id=?`, the execute raises an
`OperationalError` leaving the store unchanged, and conversely any update
that succeeds supplied at least one field. -/
theorem C10_empty_update_malformed (s : Store) (id : Nat) :
    update_sql emptyUpdate = "UPDATE tasks SET  WHERE id=?" ∧
    (update_task s id emptyUpdate).snd =
      Except.error (AppError.operationalError "near \x22WHERE\x22: syntax error") ∧
    (update_task s id emptyUpdate).fst = s ∧
    ∀ u : UpdateFields, (update_task s id u).snd = Except.ok () →
      fieldNames u ≠ [] := by
  refine ⟨by decide, rfl, rfl, ?_⟩
  intro u hok hnil
  unfold update_task at hok
  rw [if_pos hnil] at hok
  simp at hok

theorem C10_empty_update_malformed_witness :
    update_sql emptyUpdate = "UPDATE tasks SET  WHERE id=?" ∧
    fieldNames updCompleted ≠ [] :=
  ⟨(C10_empty_update_malformed exStore 1).1,
   (C10_empty_update_malformed exStore 1).2.2.2 updCompleted rfl⟩

/-- C3: submitting the add form with a title that strips to the empty string
(empty or whitespace-only) shows the `Title is required` validation error and
persists nothing: the store after the failed add is the store before it. -/
theorem C3_blank_title_rejected (now : String) (s : Store)
    (title desc pr : String) (due : Int) (tags : String)
    (h : pyStrip title = "") :
    add_form_submit now s title desc pr due tags =
      (s, Except.error (AppError.validationError "Title is required")) := by
  unfold add_form_submit
  rw [if_pos h]

theorem C3_blank_title_rejected_witness :
    add_form_submit "t0" exStore " \t  " "d" "Low" 3 "x" =
      (exStore, Except.error (AppError.validationError "Title is required")) :=
  C3_blank_title_rejected "t0" exStore " \t  " "d" "Low" 3 "x" (by decide)

/-- C4 fails on the code in one respect: `add_task` has no `return`
statement, so the caller receives `None` rather than the new row's
identifier. At a concrete valid add the returned value is `none`. -/
theorem C4_counterexample :
    (add_task "t0" exStore "Buy bread" "" "Low" 4 "").snd = none :=
  rfl

/-- C4 amended: a valid add appends exactly one new row carrying the supplied
fields with status Pending and `created_at` equal to the clock reading, and
the new row's id (`seq + 1`) differs from the id of every previously existing
row (given the AUTOINCREMENT invariant that existing ids never exceed the
sequence value); `add_task` itself returns `None`, not the identifier. -/
theorem C4_add_inserts_row (now : String) (s : Store)
    (title desc pr : String) (due : Int) (tags : String)
    (hseq : ∀ t ∈ s.rows, t.id ≤ s.seq) :
    (add_task now s title desc pr due tags).fst.rows =
      s.rows ++ [⟨s.seq + 1, title, desc, pr, due, some tags, "Pending", now⟩] ∧
    (add_task now s title desc pr due tags).snd = none ∧
    ∀ t ∈ s.rows, t.id ≠ s.seq + 1 := by
  refine ⟨rfl, rfl, ?_⟩
  intro t ht
  have := hseq t ht
  omega

theorem C4_add_inserts_row_witness :
    (add_task "t0" exStore "Walk dog" "d" "Low" 4 "pets").fst.rows =
      exStore.rows ++
        [⟨exStore.seq + 1, "Walk dog", "d", "Low", 4, some "pets", "Pending", "t0"⟩] ∧
    ∀ t ∈ exStore.rows, t.id ≠ exStore.seq + 1 :=
  ⟨(C4_add_inserts_row "t0" exStore "Walk dog" "d" "Low" 4 "pets" (by decide)).1,
   (C4_add_inserts_row "t0" exStore "Walk dog" "d" "Low" 4 "pets" (by decide)).2.2⟩

/-- C7: the upcoming-deadlines report contains exactly the tasks whose
due_date is at most today + 7 (inclusive upper bound, no lower bound, so
overdue tasks appear), ordered ascending by due_date; in the concrete
scenario with task A due today and task B due in 10 days, only A is
returned. -/
theorem C7_upcoming_within_7 (today : Int) (rows : List Task) :
    (upcoming_block today rows).Perm
      (rows.filter (fun t => t.due_date ≤ today + 7)) ∧
    List.Sorted dueLe (upcoming_block today rows) ∧
    (∀ t : Task, t ∈ upcoming_block today rows ↔
      t ∈ rows ∧ t.due_date ≤ today + 7) ∧
    upcoming_block 0 [taskA, taskB] = [taskA] := by
  refine ⟨List.perm_insertionSort dueLe _, List.sorted_insertionSort dueLe _,
    ?_, by decide⟩
  intro t
  unfold upcoming_block
  rw [List.Perm.mem_iff (List.perm_insertionSort dueLe _), List.mem_filter]
  simp

/-- A pattern without metacharacters parses to its characters as literal
atoms. -/
theorem parseAtoms_of_no_meta (l : List Char) (h : ∀ ch ∈ l, isMeta ch = false) :
    parseAtoms l = some (l.map RAtom.lit) := by
  induction l with
  | nil => rfl
  | cons ch rest ih =>
    have hch : isMeta ch = false := h ch (by simp)
    have hdot : ¬ ch = '.' := by
      intro he
      subst he
      simp [isMeta] at hch
    unfold parseAtoms
    rw [if_neg hdot, if_neg (by simp [hch]), ih (fun c hc => h c (by simp [hc]))]
    rfl

/-- Matching a list of literal atoms at the head of a string is prefix-of
after case folding both sides. -/
theorem matchHere_lit (needle : List Char) :
    ∀ hay : List Char,
      matchHere (needle.map RAtom.lit) hay =
        isPre (lowerData needle) (lowerData hay) := by
  induction needle with
  | nil => intro hay; cases hay <;> rfl
  | cons a as ih =>
    intro hay
    cases hay with
    | nil => rfl
    | cons b bs => simp [matchHere, atomMatch, isPre, lowerData, ih bs]

/-- Searching a list of literal atoms anywhere in a string is literal
substring containment after case folding both sides. -/
theorem reSearch_lit (needle : List Char) :
    ∀ hay : List Char,
      reSearch (needle.map RAtom.lit) hay =
        containsSub (lowerData needle) (lowerData hay) := by
  intro hay
  induction hay with
  | nil => cases needle <;> rfl
  | cons b bs ih =>
    simp only [reSearch, containsSub, lowerData, List.map_cons]
    rw [← lowerData, ← lowerData, matchHere_lit needle (b :: bs), ih]
    simp [lowerData]

/-- C1 fails on the code: the tag filter is pandas `str.contains` with its
default `regex=True`, so a metacharacter pattern is not matched as a literal
substring. With the default status/priority sets, no due bound and tag filter
`"."`, the code keeps the sample task (regex `.` matches any character of its
tags) although its tags do not contain the string `"."`, so the output is not
the subsequence selected by the claim's literal-containment predicate, which
is empty here. -/
theorem C1_counterexample :
    task_list_filter allStatuses allPriorities none "." [exTask] =
      some [exTask] ∧
    [exTask].filter (filter_spec_pred allStatuses allPriorities none ".") =
      [] := by
  constructor <;> decide

/-- C1 amended: for every filter spec whose tag string contains no regex
metacharacter (the UI's plain tag substrings), the filter block returns
exactly the subsequence of tasks satisfying the conjunction of the active
predicates: status membership (an empty set matches none), priority
membership, `due_before` absent or `due_date ≤ due_before`, and tag filter
absent/empty or tags containing it case-insensitively, a task with NULL tags
never matching. For patterns with metacharacters the code applies regex
search instead of literal containment. -/
theorem C1_filter_conjunction (status_f prio_f : List String)
    (due_f : Option Int) (tag_f : String) (rows : List Task)
    (h : ∀ ch ∈ tag_f.data, isMeta ch = false) :
    task_list_filter status_f prio_f due_f tag_f rows =
      some (rows.filter (filter_spec_pred status_f prio_f due_f tag_f)) := by
  cases due_f with
  | none =>
    by_cases hg : tag_f = ""
    · subst hg
      simp only [task_list_filter, if_pos rfl, List.filter_filter]
      refine congrArg some (List.filter_congr ?_)
      intro t _
      simp only [filter_spec_pred]
      cases status_f.contains t.status <;> cases prio_f.contains t.priority <;>
        simp
    · simp only [task_list_filter, if_neg hg,
        parseAtoms_of_no_meta tag_f.data h, List.filter_filter]
      refine congrArg some (List.filter_congr ?_)
      intro t _
      simp only [filter_spec_pred, if_neg hg]
      have hre := reSearch_lit tag_f.data
      cases htg : t.tags with
      | none =>
        cases status_f.contains t.status <;> cases prio_f.contains t.priority <;>
          simp
      | some sg =>
        cases status_f.contains t.status <;> cases prio_f.contains t.priority <;>
          cases hc : containsSub (lowerData tag_f.data) (lowerData sg.data) <;>
          simp [hre, hc]
  | some d =>
    by_cases hg : tag_f = ""
    · subst hg
      simp only [task_list_filter, if_pos rfl, List.filter_filter]
      refine congrArg some (List.filter_congr ?_)
      intro t _
      simp only [filter_spec_pred]
      cases status_f.contains t.status <;> cases prio_f.contains t.priority <;>
        cases hdec : decide (t.due_date ≤ d) <;> simp [hdec]
    · simp only [task_list_filter, if_neg hg,
        parseAtoms_of_no_meta tag_f.data h, List.filter_filter]
      refine congrArg some (List.filter_congr ?_)
      intro t _
      simp only [filter_spec_pred, if_neg hg]
      have hre := reSearch_lit tag_f.data
      cases htg : t.tags with
      | none =>
        cases status_f.contains t.status <;> cases prio_f.contains t.priority <;>
          cases hdec : decide (t.due_date ≤ d) <;> simp [hdec]
      | some sg =>
        cases status_f.contains t.status <;> cases prio_f.contains t.priority <;>
          cases hdec : decide (t.due_date ≤ d) <;>
          cases hc : containsSub (lowerData tag_f.data) (lowerData sg.data) <;>
          simp [hre, hdec, hc]

theorem C1_filter_conjunction_witness :
    task_list_filter allStatuses allPriorities (some 5) "home" [exTask] =
      some ([exTask].filter
        (filter_spec_pred allStatuses allPriorities (some 5) "home")) :=
  C1_filter_conjunction allStatuses allPriorities (some 5) "home" [exTask]
    (by decide)

/-- Newline counting distributes over string append. -/
theorem newlineCount_append (a b : String) :
    newlineCount (a ++ b) = newlineCount a + newlineCount b := by
  simp [newlineCount, String.data_append, List.count_append]

/-- A string without `"\n"` has newline count zero. -/
theorem newlineCount_eq_zero (s : String) (h : '\n' ∉ s.data) :
    newlineCount s = 0 :=
  List.count_eq_zero.mpr h

/-- Quote doubling introduces no line break. -/
theorem escapeQuotes_no_nl (s : String) (h : '\n' ∉ s.data) :
    '\n' ∉ (escapeQuotes s).data := by
  intro hmem
  simp only [escapeQuotes] at hmem
  rcases List.mem_flatMap.mp hmem with ⟨b, hb, hfb⟩
  by_cases hq : b = '"'
  · simp [hq] at hfb
  · simp [hq] at hfb
    rw [← hfb] at hb
    exact h hb

/-- CSV quoting of a field without line breaks yields a field without line
breaks. -/
theorem csvField_no_nl (s : String) (h : '\n' ∉ s.data) :
    '\n' ∉ (csvField s).data := by
  unfold csvField
  split
  · intro hmem
    rw [String.data_append, String.data_append] at hmem
    rcases List.mem_append.mp hmem with hm | hm
    · rcases List.mem_append.mp hm with hm2 | hm2
      · simp at hm2
      · exact escapeQuotes_no_nl s h hm2
    · simp at hm
  · exact h

/-- Decimal digits are never a line break. -/
theorem digitChar_ne_nl (k : Nat) : ¬ digitChar k = '\n' := by
  unfold digitChar
  repeat' split
  all_goals decide

/-- The decimal renderer only prepends digit characters. -/
theorem natDigitsAux_nl (fuel : Nat) :
    ∀ (n : Nat) (acc : List Char),
      '\n' ∈ natDigitsAux fuel n acc → '\n' ∈ acc := by
  induction fuel with
  | zero => intro n acc hm; exact hm
  | succ f ih =>
    intro n acc hm
    unfold natDigitsAux at hm
    split at hm
    · rcases List.mem_cons.mp hm with he | hm2
      · exact absurd he.symm (digitChar_ne_nl n)
      · exact hm2
    · rcases List.mem_cons.mp (ih (n / 10) (digitChar (n % 10) :: acc) hm) with
        he | hm2
      · exact absurd he.symm (digitChar_ne_nl (n % 10))
      · exact hm2

/-- Decimal renderings of naturals contain no line break. -/
theorem natToStr_no_nl (n : Nat) : '\n' ∉ (natToStr n).data := by
  intro hm
  have h0 := natDigitsAux_nl (n + 1) n [] hm
  simp at h0

/-- Decimal renderings of integers contain no line break. -/
theorem intToStr_no_nl (i : Int) : '\n' ∉ (intToStr i).data := by
  cases i with
  | ofNat n => exact natToStr_no_nl n
  | negSucc n =>
    intro hm
    rw [intToStr, String.data_append] at hm
    rcases List.mem_append.mp hm with hm2 | hm2
    · simp at hm2
    · exact natToStr_no_nl (n + 1) hm2

/-- Comma-joining strings without line breaks yields a string without line
breaks. -/
theorem joinComma_no_nl : ∀ l : List String, (∀ s ∈ l, '\n' ∉ s.data) →
    '\n' ∉ (joinComma l).data := by
  intro l
  induction l with
  | nil => intro _ hm; simp [joinComma] at hm
  | cons x xs ih =>
    intro hall hm
    cases xs with
    | nil => exact hall x (by simp) hm
    | cons y ys =>
      simp only [joinComma] at hm
      rw [String.data_append, String.data_append] at hm
      rcases List.mem_append.mp hm with hm2 | hm2
      · rcases List.mem_append.mp hm2 with hm3 | hm3
        · exact hall x (by simp) hm3
        · simp at hm3
      · exact ih (fun s hs => hall s (by simp [hs])) hm2

/-- A CSV record of a row whose fields are free of line breaks is free of
line breaks. -/
theorem csvRow_no_nl (t : Task) (h : taskNoNL t = true) :
    '\n' ∉ (csvRow t).data := by
  simp only [taskNoNL, Bool.and_eq_true] at h
  obtain ⟨⟨⟨⟨⟨h1, h2⟩, h3⟩, h4⟩, h5⟩, h6⟩ := h
  have hx : ∀ s : String, noNL s = true → '\n' ∉ s.data := by
    intro s hs
    exact of_decide_eq_true hs
  apply joinComma_no_nl
  intro s hs
  simp only [csvRow, List.mem_cons, List.not_mem_nil, or_false] at hs
  rcases hs with rfl | rfl | rfl | rfl | rfl | rfl | rfl | rfl
  · exact natToStr_no_nl t.id
  · exact csvField_no_nl _ (hx _ h1)
  · exact csvField_no_nl _ (hx _ h2)
  · exact csvField_no_nl _ (hx _ h3)
  · exact intToStr_no_nl t.due_date
  · exact csvField_no_nl _ (hx _ h4)
  · exact csvField_no_nl _ (hx _ h5)
  · exact csvField_no_nl _ (hx _ h6)

/-- C9 fails on the code for fields with embedded line breaks: a single task
whose description contains `"\n"` (enterable through the description text
area) exports as a quoted field spanning two physical lines, so the dump has
3 newline-terminated lines, not N + 1 = 2. -/
theorem C9_counterexample :
    newlineCount (to_csv [nlTask]) = 3 ∧
    ¬ newlineCount (to_csv [nlTask]) = [nlTask].length + 1 := by
  constructor <;> decide

/-- C9 amended: for every store of N tasks none of whose text fields contains
a line break, the CSV export has exactly N + 1 newline-terminated lines, and
it begins with the header line listing the schema columns in documented
order. Fields containing a line break are quoted by the exporter and span
several physical lines. -/
theorem C9_export_lines (rows : List Task)
    (h : ∀ t ∈ rows, taskNoNL t = true) :
    newlineCount (to_csv rows) = rows.length + 1 ∧
    csv_header = "id,title,description,priority,due_date,tags,status,created_at" ∧
    ∃ rest : String, to_csv rows = csv_header ++ "\n" ++ rest := by
  refine ⟨?_, by decide, ⟨_, rfl⟩⟩
  unfold to_csv
  rw [newlineCount_append, newlineCount_append]
  have hh : newlineCount csv_header = 0 := by decide
  have h1 : newlineCount "\n" = 1 := by decide
  rw [hh, h1]
  have hc : ∀ rs : List Task, (∀ t ∈ rs, taskNoNL t = true) →
      newlineCount (concatAll (rs.map (fun t => csvRow t ++ "\n"))) =
        rs.length := by
    intro rs
    induction rs with
    | nil => intro _; decide
    | cons t ts ih =>
      intro hall
      simp only [List.map_cons, concatAll]
      rw [newlineCount_append, newlineCount_append,
        newlineCount_eq_zero _ (csvRow_no_nl t (hall t (by simp))),
        ih (fun u hu => hall u (by simp [hu])), h1]
      simp [List.length_cons]
      omega
  rw [hc rows h]
  omega

theorem C9_export_lines_witness :
    newlineCount (to_csv [exTask]) = 2 ∧
    csv_header = "id,title,description,priority,due_date,tags,status,created_at" :=
  ⟨(C9_export_lines [exTask] (by decide)).1,
   (C9_export_lines [exTask] (by decide)).2.1⟩

end Todojo
